import Mathlib

set_option maxHeartbeats 1000000

/-! Shallow embedding of the SPNEGO Kerberos HTTP authentication service
(service/http.go): the AP-REQ validation pipeline (`validateAPREQ`), the
replay cache it consults, and the HTTP handler wrapper
(`SPNEGOKRB5Authenticate` / `rejectSPNEGO`).  Wall-clock time and durations
are modelled as integers counting microseconds (the resolution of the
authenticator's `Cusec` field); byte strings are lists of naturals.  The
handler's external collaborators (base64 decoding, ASN.1 unmarshalling,
ticket and authenticator decryption) are abstracted as function parameters
returning `Except`, matching the Go functions' `(value, error)` results. -/

namespace Service

/-- Kerberos principal name (types.PrincipalName): a name type and the
name components. -/
structure PrincipalName where
  nameType : Int
  nameString : List String
  deriving DecidableEq

/-- The fields of a decrypted Kerberos authenticator that the handler and
validator read (types.Authenticator): client realm, client principal name,
client time and its microsecond offset. -/
structure Authenticator where
  crealm : String
  cname : PrincipalName
  ctime : Int
  cusec : Int
  deriving DecidableEq

/-- The decrypted encrypted part of a service ticket
(Ticket.DecryptedEncPart): session key, client principal, validity window
and the invalid flag (the one flag `validateAPREQ` tests). -/
structure TicketEncPart where
  key : List Nat
  cname : PrincipalName
  starttime : Int
  endtime : Int
  flagInvalid : Bool
  deriving DecidableEq

/-- A service ticket after decryption: service principal name, realm, and
the decrypted encrypted part. -/
structure TicketDec where
  sname : PrincipalName
  realm : String
  decryptedEncPart : TicketEncPart
  deriving DecidableEq

/-- The AP-REQ message as `validateAPREQ` sees it: its (decrypted) ticket. -/
structure APReqDec where
  ticket : TicketDec
  deriving DecidableEq

/-- Modelled from the spec: the replay-cache key.  `GetReplayCache` and
`IsReplay` are not among the source files; the spec defines the
authenticator fingerprint as the composite of client principal name, client
realm, service principal name, and the authenticator timestamp at
microsecond resolution. -/
structure Fingerprint where
  cname : PrincipalName
  crealm : String
  sname : PrincipalName
  ctime : Int
  cusec : Int
  deriving DecidableEq

/-- Modelled from the spec: the replay cache is a store of previously seen
fingerprints, each with its insertion time. -/
structure ReplayCache where
  entries : List (Fingerprint × Int)
  deriving DecidableEq

/-- Modelled from the spec: the lazy eviction sweep, dropping entries whose
insertion time is older than `now - window`. -/
def evict (window now : Int) (c : ReplayCache) : ReplayCache :=
  ⟨c.entries.filter (fun e => decide (now - e.2 ≤ window))⟩

/-- Whether a fingerprint is present in the cache within the window (after
the eviction sweep). -/
def seenInWindow (window : Int) (fp : Fingerprint) (now : Int) (c : ReplayCache) : Bool :=
  (evict window now c).entries.any (fun e => decide (e.1 = fp))

/-- Modelled from the spec: the atomic check-and-record step of the replay
cache (`IsReplay` in the source's caller).  It returns `true` if the
fingerprint was already present within the window (replay; no insertion),
otherwise inserts the fingerprint with the current time and returns `false`
(fresh).  Spec §4.1 requires this step to be atomic; concurrent calls are
therefore modelled as an arbitrary serialisation of these atomic steps. -/
def checkAndRecord (window : Int) (fp : Fingerprint) (now : Int) (c : ReplayCache) :
    Bool × ReplayCache :=
  if seenInWindow window fp now c then (true, evict window now c)
  else (false, ⟨(fp, now) :: (evict window now c).entries⟩)

/-- A serialised run of atomic check-and-record steps for one fingerprint,
one call per listed time, threading the cache state. -/
def runCalls (window : Int) (fp : Fingerprint) : ReplayCache → List Int → List Bool
  | _, [] => []
  | c, t :: ts =>
    (checkAndRecord window fp t c).1 :: runCalls window fp (checkAndRecord window fp t c).2 ts

/-- The rejection reasons of `validateAPREQ`, one per Kerberos error code
it raises (KRB_AP_ERR_BADMATCH, KRB_AP_ERR_SKEW, KRB_AP_ERR_REPEAT,
KRB_AP_ERR_TKT_NYV, KRB_AP_ERR_TKT_EXPIRED). -/
inductive Reason
  | BadMatch
  | ClockSkew
  | Replay
  | NotYetValid
  | Expired
  deriving DecidableEq

/-- The validator's decision: Go's `(true, nil)` is `accepted`, and
`(false, KRBError code)` is `rejected reason`. -/
inductive AuthDecision
  | accepted
  | rejected (reason : Reason)
  deriving DecidableEq

/-- The hardcoded maximum clock skew: 5 minutes, in microseconds
(`d := time.Duration(5) * time.Minute`, with the source comment
"Hardcode 5 min max skew. May want to make this configurable"). -/
def maxSkew : Int := 5 * 60 * 1000000

/-- The authenticator time: `a.CTime.Add(time.Duration(a.Cusec) * time.Microsecond)`. -/
def authTime (a : Authenticator) : Int := a.ctime + a.cusec

/-- The fingerprint presented to the replay cache: `rc.IsReplay(d, APReq.Ticket.SName, a)`
keys on the service principal name and the authenticator. -/
def fingerprintOf (req : APReqDec) (a : Authenticator) : Fingerprint :=
  ⟨a.cname, a.crealm, req.ticket.sname, a.ctime, a.cusec⟩

/-- `validateAPREQ` (service/http.go lines 91-133), with the wall clock
`now` (read once, `time.Now().UTC()`) and the process-wide replay cache
passed explicitly.  The checks appear in source order: principal match,
clock skew, replay, not-yet-valid (start time too far ahead or invalid
flag), expired.  The Go accept path reads `return true`; with the declared
`(bool, error)` result this stands for `return true, nil`. -/
def validateAPREQ (a : Authenticator) (req : APReqDec) (now : Int) (c : ReplayCache) :
    AuthDecision × ReplayCache :=
  if a.cname ≠ req.ticket.decryptedEncPart.cname then
    (.rejected .BadMatch, c)
  else if now - authTime a > maxSkew ∨ authTime a - now > maxSkew then
    (.rejected .ClockSkew, c)
  else if (checkAndRecord maxSkew (fingerprintOf req a) now c).1 then
    (.rejected .Replay, (checkAndRecord maxSkew (fingerprintOf req a) now c).2)
  else if req.ticket.decryptedEncPart.starttime - now > maxSkew ∨
      req.ticket.decryptedEncPart.flagInvalid = true then
    (.rejected .NotYetValid, (checkAndRecord maxSkew (fingerprintOf req a) now c).2)
  else if now - req.ticket.decryptedEncPart.endtime > maxSkew then
    (.rejected .Expired, (checkAndRecord maxSkew (fingerprintOf req a) now c).2)
  else
    (.accepted, (checkAndRecord maxSkew (fingerprintOf req a) now c).2)

/-- The validator as the spec describes it in §4.2 and §6: parameterised by
a configured maximum-skew duration `d`, with the same `d` used as the
clock-skew bound and as the replay-cache window.  Stated from the spec's
words to compare with `validateAPREQ`, whose `d` is hardcoded. -/
def validateAPREQWithD (d : Int) (a : Authenticator) (req : APReqDec) (now : Int)
    (c : ReplayCache) : AuthDecision × ReplayCache :=
  if a.cname ≠ req.ticket.decryptedEncPart.cname then
    (.rejected .BadMatch, c)
  else if now - authTime a > d ∨ authTime a - now > d then
    (.rejected .ClockSkew, c)
  else if (checkAndRecord d (fingerprintOf req a) now c).1 then
    (.rejected .Replay, (checkAndRecord d (fingerprintOf req a) now c).2)
  else if req.ticket.decryptedEncPart.starttime - now > d ∨
      req.ticket.decryptedEncPart.flagInvalid = true then
    (.rejected .NotYetValid, (checkAndRecord d (fingerprintOf req a) now c).2)
  else if now - req.ticket.decryptedEncPart.endtime > d then
    (.rejected .Expired, (checkAndRecord d (fingerprintOf req a) now c).2)
  else
    (.accepted, (checkAndRecord d (fingerprintOf req a) now c).2)

/-! ### The HTTP handler wrapper -/

/-- An encrypted AP-REQ as carried by the mechanism token: a ticket whose
encrypted part is still opaque bytes, and the encrypted authenticator. -/
structure EncTicket where
  sname : PrincipalName
  realm : String
  encPart : List Nat
  deriving DecidableEq

structure APReqEnc where
  ticket : EncTicket
  authenticator : List Nat
  deriving DecidableEq

/-- A GSSAPI mechanism token: whether its inner message is an AP-REQ
(`mt.IsAPReq()`), and that AP-REQ. -/
structure MechToken where
  isAPReq : Bool
  apreq : APReqEnc
  deriving DecidableEq

/-- An object identifier, as a list of arcs. -/
structure OID where
  arcs : List Nat
  deriving DecidableEq

/-- The Kerberos 5 mechanism OID 1.2.840.113554.1.2.2 (GSSAPI.MechTypeOID_Krb5). -/
def MechTypeOID_Krb5 : OID := ⟨[1, 2, 840, 113554, 1, 2, 2]⟩

/-- A decoded NegTokenInit: its MechTypes list and the mechanism token bytes. -/
structure NegTokenInit where
  mechTypes : List OID
  mechToken : List Nat
  deriving DecidableEq

/-- The result of `GSSAPI.UnmarshalNegToken`: an unmarshalling error, a
token that is not a NegTokenInit, or a NegTokenInit. -/
inductive NegTokenResult
  | err (msg : String)
  | notInit
  | ntInit (nt : NegTokenInit)
  deriving DecidableEq

/-- The handler's external collaborators (out of scope per the spec,
consumed at their interface boundary): base64 decoding, the two ASN.1
unmarshalling steps, and the two decryption steps.  Each fallible Go call
returning `(value, error)` is an `Except String` value. -/
structure Externals where
  b64decode : List Char → Except String (List Nat)
  unmarshalNegToken : List Nat → NegTokenResult
  unmarshalMechToken : List Nat → Except String MechToken
  decryptTicketEncPart : List Nat → List Nat → Except String TicketEncPart
  decryptAuthenticator : List Nat → List Nat → Except String (List Nat)
  unmarshalAuthenticator : List Nat → Except String Authenticator

/-- The parts of the HTTP request the handler reads: the remote address
(used only in log messages) and the `Authorization` header
(`r.Header.Get` yields the empty string when the header is absent). -/
structure Request where
  remoteAddr : String
  authorization : List Char
  deriving DecidableEq

/-- A written HTTP response: status code, the `WWW-Authenticate` header
value, and the body. -/
structure Response where
  status : Nat
  wwwAuthenticate : String
  body : String
  deriving DecidableEq

/-- The identity attached to the request context on acceptance: the
`cname`, `crealm` and `authenticated` context keys. -/
structure AuthContext where
  cname : String
  crealm : String
  authenticated : Bool
  deriving DecidableEq

/-- The observable outcome of one handler invocation: a response written
with the downstream handler not invoked (`denied`, also carrying what was
logged), the downstream handler invoked with the enriched request and the
`WWW-Authenticate` header already set (`accepted`), or a runtime panic. -/
inductive HandlerResult
  | denied (resp : Response) (logged : Option String)
  | accepted (wwwAuthenticate : String) (ctx : AuthContext)
  | panicked
  deriving DecidableEq

/-- `SPNEGO_NegTokenResp_Krb_Accept_Completed` (service/http.go line 22). -/
def SPNEGO_NegTokenResp_Krb_Accept_Completed : String :=
  "Negotiate oRQwEqADCgEAoQsGCSqGSIb3EgECAg=="

/-- `SPNEGO_NegTokenResp_Reject` (service/http.go line 23). -/
def SPNEGO_NegTokenResp_Reject : String := "Negotiate oQcwBaADCgEC"

/-- `rejectSPNEGO` (service/http.go lines 135-142): log the message when a
logger is present, then write 401 with the fixed reject token header and
the fixed body. -/
def rejectSPNEGO (loggerPresent : Bool) (logMsg : String) : HandlerResult :=
  .denied ⟨401, SPNEGO_NegTokenResp_Reject, "Unauthorised.\n"⟩
    (if loggerPresent then some logMsg else none)

/-- The response written on the initial challenge (nothing is logged on
that path). -/
def challengeResult : HandlerResult :=
  .denied ⟨401, "Negotiate", "Unauthorised.\n"⟩ none

/-- `GetPrincipalNameString`: the name components joined with "/". -/
def getPrincipalNameString (pn : PrincipalName) : String :=
  String.intercalate "/" pn.nameString

/-- The message of the KRBError `validateAPREQ` returns for each reason
(the `%v` rendering of the error is abbreviated to this message). -/
def reasonMessage : Reason → String
  | .BadMatch => "CName in Authenticator does not match that in service ticket"
  | .ClockSkew => "Clock skew with client too large. Greater than 5m0s seconds"
  | .Replay => "Replay detected"
  | .NotYetValid => "Service ticket provided is not yet valid"
  | .Expired => "Service ticket provided has expired"

/-- Go's `strings.SplitN(s, " ", 2)` on the header: the part before the
first space, and the remainder after it when a space occurs (`none` when
the separator does not occur, in which case Go returns the one-element
slice). -/
def goSplitN2 : List Char → List Char × Option (List Char)
  | [] => ([], none)
  | ch :: cs =>
    if ch = ' ' then ([], some cs)
    else (ch :: (goSplitN2 cs).1, (goSplitN2 cs).2)

/-- The body of the handler closure after the `Negotiate` scheme guard
(service/http.go lines 36-87): decode the token, drive the external
unmarshalling and decryption steps, validate, and shape the outcome.
Indexing `nInit.MechTypes[0]` on an empty MechTypes list is Go's
index-out-of-range runtime panic, modelled as the `panicked` outcome. -/
def processToken (ext : Externals) (ktab : List Nat) (loggerPresent : Bool)
    (remoteAddr : String) (tok : List Char) (now : Int) (c : ReplayCache) :
    HandlerResult × ReplayCache :=
  match ext.b64decode tok with
  | .error e =>
    (rejectSPNEGO loggerPresent
      (remoteAddr ++ " - SPNEGO error in base64 decoding negotiation header: " ++ e), c)
  | .ok b =>
    match ext.unmarshalNegToken b with
    | .err e =>
      (rejectSPNEGO loggerPresent
        (remoteAddr ++ " - SPNEGO negotiation token is not a NegTokenInit: " ++ e), c)
    | .notInit =>
      (rejectSPNEGO loggerPresent
        (remoteAddr ++ " - SPNEGO negotiation token is not a NegTokenInit: <nil>"), c)
    | .ntInit nInit =>
      match nInit.mechTypes with
      | [] => (.panicked, c)
      | m0 :: _ =>
        if m0 ≠ MechTypeOID_Krb5 then
          (rejectSPNEGO loggerPresent
            (remoteAddr ++ " - SPNEGO OID of MechToken is not of type KRB5"), c)
        else
          match ext.unmarshalMechToken nInit.mechToken with
          | .error e =>
            (rejectSPNEGO loggerPresent
              (remoteAddr ++ " - SPNEGO error unmarshaling MechToken: " ++ e), c)
          | .ok mt =>
            if ¬ mt.isAPReq then
              (rejectSPNEGO loggerPresent
                (remoteAddr ++ " - MechToken does not contain an AP_REQ - KRB_AP_ERR_MSG_TYPE"), c)
            else
              match ext.decryptTicketEncPart ktab mt.apreq.ticket.encPart with
              | .error e =>
                (rejectSPNEGO loggerPresent
                  (remoteAddr ++ " - SPNEGO error decrypting the service ticket provided: " ++ e), c)
              | .ok decTkt =>
                match ext.decryptAuthenticator decTkt.key mt.apreq.authenticator with
                | .error e =>
                  (rejectSPNEGO loggerPresent
                    (remoteAddr ++ " - SPNEGO error decrypting the authenticator provided: " ++ e), c)
                | .ok ab =>
                  match ext.unmarshalAuthenticator ab with
                  | .error e =>
                    (rejectSPNEGO loggerPresent
                      (remoteAddr ++ " - SPNEGO error unmarshalling the authenticator: " ++ e), c)
                  | .ok a =>
                    match validateAPREQ a ⟨⟨mt.apreq.ticket.sname, mt.apreq.ticket.realm, decTkt⟩⟩ now c with
                    | (.accepted, c2) =>
                      (.accepted SPNEGO_NegTokenResp_Krb_Accept_Completed
                        ⟨getPrincipalNameString a.cname, a.crealm, true⟩, c2)
                    | (.rejected rsn, c2) =>
                      (rejectSPNEGO loggerPresent
                        (remoteAddr ++ " - SPNEGO Kerberos authentication failed: " ++ reasonMessage rsn), c2)

/-- `SPNEGOKRB5Authenticate` (service/http.go lines 27-89): the wrapped
handler, with the wall clock and the process-wide replay cache passed
explicitly.  The guard `len(s) != 2 || s[0] != "Negotiate"` writes the
initial challenge; otherwise the token part is processed. -/
def SPNEGOKRB5Authenticate (ext : Externals) (ktab : List Nat) (loggerPresent : Bool)
    (r : Request) (now : Int) (c : ReplayCache) : HandlerResult × ReplayCache :=
  match goSplitN2 r.authorization with
  | (s0, some s1) =>
    if s0 = "Negotiate".toList then
      processToken ext ktab loggerPresent r.remoteAddr s1 now c
    else (challengeResult, c)
  | (_, none) => (challengeResult, c)

/-! ### Sample values used by witnesses and counterexamples -/

def alice : PrincipalName := ⟨1, ["alice"]⟩

def bob : PrincipalName := ⟨1, ["bob"]⟩

def srv : PrincipalName := ⟨2, ["HTTP", "host.test"]⟩

/-- A sample authenticator: client `alice`, timestamp 0. -/
def aOK : Authenticator := ⟨"REALM", alice, 0, 0⟩

/-- A decrypted AP-REQ whose ticket matches `aOK` and is valid around time 0. -/
def tktOK : APReqDec := ⟨⟨srv, "REALM", ⟨[], alice, 0, 1000000000000, false⟩⟩⟩

/-- A decrypted AP-REQ whose ticket client (`bob`) differs from `aOK`'s. -/
def tktMismatch : APReqDec := ⟨⟨srv, "REALM", ⟨[], bob, 0, 1000000000000, false⟩⟩⟩

/-- A decrypted AP-REQ matching `aOK` whose ticket start time is far in the
future (not yet valid). -/
def tktNYV : APReqDec := ⟨⟨srv, "REALM", ⟨[], alice, 1000000000000, 2000000000000, false⟩⟩⟩

def emptyCache : ReplayCache := ⟨[]⟩

def fpSample : Fingerprint := ⟨alice, "REALM", srv, 0, 0⟩

/-- Sample collaborators for which every stage succeeds and yields a
credential accepted at time 0. -/
def extOK : Externals :=
  ⟨fun _ => .ok [], fun _ => .ntInit ⟨[MechTypeOID_Krb5], []⟩,
   fun _ => .ok ⟨true, ⟨⟨srv, "REALM", []⟩, []⟩⟩,
   fun _ _ => .ok ⟨[], alice, 0, 1000000000000, false⟩,
   fun _ _ => .ok [], fun _ => .ok aOK⟩

/-- Sample collaborators whose base64 decoding step fails. -/
def extBadB64 : Externals :=
  ⟨fun _ => .error "illegal base64 data", extOK.unmarshalNegToken, extOK.unmarshalMechToken,
   extOK.decryptTicketEncPart, extOK.decryptAuthenticator, extOK.unmarshalAuthenticator⟩

/-- Sample collaborators decoding to a NegTokenInit with an empty MechTypes list. -/
def extEmptyMech : Externals :=
  ⟨fun _ => .ok [], fun _ => .ntInit ⟨[], []⟩, extOK.unmarshalMechToken,
   extOK.decryptTicketEncPart, extOK.decryptAuthenticator, extOK.unmarshalAuthenticator⟩

/-! ### Helper lemmas -/

theorem checkAndRecord_fst (window : Int) (fp : Fingerprint) (now : Int) (c : ReplayCache) :
    (checkAndRecord window fp now c).1 = seenInWindow window fp now c := by
  by_cases h : seenInWindow window fp now c <;> simp [checkAndRecord, h]

theorem checkAndRecord_of_fresh (window : Int) (fp : Fingerprint) (now : Int)
    (c : ReplayCache) (h : seenInWindow window fp now c = false) :
    checkAndRecord window fp now c = (false, ⟨(fp, now) :: (evict window now c).entries⟩) := by
  simp [checkAndRecord, h]

theorem checkAndRecord_of_mem (window t t0 : Int) (fp : Fingerprint) (c : ReplayCache)
    (hmem : (fp, t0) ∈ c.entries) (hw : t - t0 ≤ window) :
    checkAndRecord window fp t c = (true, evict window t c) ∧
      (fp, t0) ∈ (evict window t c).entries := by
  have hmem2 : (fp, t0) ∈ (evict window t c).entries := by
    simp only [evict, List.mem_filter]
    exact ⟨hmem, by simpa using hw⟩
  have hseen : seenInWindow window fp t c = true := by
    simp only [seenInWindow, List.any_eq_true]
    exact ⟨(fp, t0), hmem2, by simp⟩
  exact ⟨by simp [checkAndRecord, hseen], hmem2⟩

theorem runCalls_replays (window t0 : Int) (fp : Fingerprint) :
    ∀ (ts : List Int) (c : ReplayCache), (fp, t0) ∈ c.entries →
      (∀ t ∈ ts, t - t0 ≤ window) → runCalls window fp c ts = ts.map (fun _ => true)
  | [], _, _, _ => rfl
  | t :: ts, c, hmem, hw => by
    have h := checkAndRecord_of_mem window t t0 fp c hmem (hw t (List.mem_cons_self t ts))
    simp only [runCalls, h.1, List.map_cons]
    exact congrArg (List.cons true) (runCalls_replays window t0 fp ts (evict window t c) h.2
      (fun u hu => hw u (List.mem_cons_of_mem t hu)))

theorem goSplitN2_some (l r : List Char) (h : (goSplitN2 l).2 = some r) :
    l = (goSplitN2 l).1 ++ ' ' :: r := by
  induction l with
  | nil => simp [goSplitN2] at h
  | cons ch cs ih =>
    by_cases hch : ch = ' '
    · subst hch
      simp_all [goSplitN2]
    · simp only [goSplitN2, if_neg hch, List.cons_append] at h ⊢
      exact congrArg (List.cons ch) (ih h)

theorem goSplitN2_append (p r : List Char) (hp : ' ' ∉ p) :
    goSplitN2 (p ++ ' ' :: r) = (p, some r) := by
  induction p with
  | nil => simp [goSplitN2]
  | cons ch cs ih =>
    have hch : ¬ ch = ' ' := fun h => hp (h ▸ List.mem_cons_self ch cs)
    have ih2 := ih (fun hm => hp (List.mem_cons_of_mem ch hm))
    show goSplitN2 (ch :: (cs ++ ' ' :: r)) = (ch :: cs, some r)
    simp only [goSplitN2, if_neg hch]
    rw [ih2]

theorem handler_guard_pass (ext : Externals) (ktab : List Nat) (lp : Bool) (r : Request)
    (now : Int) (c : ReplayCache) (tok : List Char)
    (htok : r.authorization = "Negotiate".toList ++ ' ' :: tok) :
    SPNEGOKRB5Authenticate ext ktab lp r now c =
      processToken ext ktab lp r.remoteAddr tok now c := by
  unfold SPNEGOKRB5Authenticate
  rw [htok, goSplitN2_append _ _ (by decide)]
  simp

theorem rejectSPNEGO_denied (lp : Bool) (msg : String) (resp : Response)
    (logged : Option String) (h : rejectSPNEGO lp msg = .denied resp logged) :
    resp = ⟨401, SPNEGO_NegTokenResp_Reject, "Unauthorised.\n"⟩ ∧
      (lp = false → logged = none) := by
  unfold rejectSPNEGO at h
  injection h with h1 h2
  refine ⟨h1.symm, ?_⟩
  intro hlp
  subst hlp
  simpa using h2.symm

/-! ### Claim theorems -/

/-- Claim C1: `validateAPREQ` applies exactly five checks in the order
principal match, clock skew, replay, not-yet-valid, expired,
short-circuiting on the first failing check with the corresponding reason
(BadMatch, ClockSkew, Replay, NotYetValid, Expired), and returns Accepted
exactly when all five pass. -/
theorem c1_validateAPREQ_ordered_checks (a : Authenticator) (req : APReqDec) (now : Int)
    (c : ReplayCache) :
    (a.cname ≠ req.ticket.decryptedEncPart.cname →
      (validateAPREQ a req now c).1 = .rejected .BadMatch)
    ∧ (a.cname = req.ticket.decryptedEncPart.cname →
        (now - authTime a > maxSkew ∨ authTime a - now > maxSkew) →
        (validateAPREQ a req now c).1 = .rejected .ClockSkew)
    ∧ (a.cname = req.ticket.decryptedEncPart.cname →
        ¬(now - authTime a > maxSkew ∨ authTime a - now > maxSkew) →
        seenInWindow maxSkew (fingerprintOf req a) now c = true →
        (validateAPREQ a req now c).1 = .rejected .Replay)
    ∧ (a.cname = req.ticket.decryptedEncPart.cname →
        ¬(now - authTime a > maxSkew ∨ authTime a - now > maxSkew) →
        seenInWindow maxSkew (fingerprintOf req a) now c = false →
        (req.ticket.decryptedEncPart.starttime - now > maxSkew ∨
          req.ticket.decryptedEncPart.flagInvalid = true) →
        (validateAPREQ a req now c).1 = .rejected .NotYetValid)
    ∧ (a.cname = req.ticket.decryptedEncPart.cname →
        ¬(now - authTime a > maxSkew ∨ authTime a - now > maxSkew) →
        seenInWindow maxSkew (fingerprintOf req a) now c = false →
        ¬(req.ticket.decryptedEncPart.starttime - now > maxSkew ∨
            req.ticket.decryptedEncPart.flagInvalid = true) →
        now - req.ticket.decryptedEncPart.endtime > maxSkew →
        (validateAPREQ a req now c).1 = .rejected .Expired)
    ∧ ((validateAPREQ a req now c).1 = .accepted ↔
        (a.cname = req.ticket.decryptedEncPart.cname ∧
          ¬(now - authTime a > maxSkew ∨ authTime a - now > maxSkew) ∧
          seenInWindow maxSkew (fingerprintOf req a) now c = false ∧
          ¬(req.ticket.decryptedEncPart.starttime - now > maxSkew ∨
              req.ticket.decryptedEncPart.flagInvalid = true) ∧
          ¬(now - req.ticket.decryptedEncPart.endtime > maxSkew))) := by
  refine ⟨?_, ?_, ?_, ?_, ?_, ?_⟩
  · intro h
    simp [validateAPREQ, h]
  · intro h hs
    simp [validateAPREQ, h, hs]
  · intro h hs hr
    simp [validateAPREQ, h, hs, checkAndRecord_fst, hr]
  · intro h hs hr hn
    simp [validateAPREQ, h, hs, checkAndRecord_fst, hr, hn]
  · intro h hs hr hn he
    simp [validateAPREQ, h, hs, checkAndRecord_fst, hr, hn, he]
  · constructor
    · intro hacc
      by_cases h : a.cname = req.ticket.decryptedEncPart.cname
      · by_cases hs : now - authTime a > maxSkew ∨ authTime a - now > maxSkew
        · simp [validateAPREQ, h, hs] at hacc
        · by_cases hr : seenInWindow maxSkew (fingerprintOf req a) now c = true
          · simp [validateAPREQ, h, hs, checkAndRecord_fst, hr] at hacc
          · have hr2 : seenInWindow maxSkew (fingerprintOf req a) now c = false := by
              simpa using hr
            by_cases hn : req.ticket.decryptedEncPart.starttime - now > maxSkew ∨
                req.ticket.decryptedEncPart.flagInvalid = true
            · simp [validateAPREQ, h, hs, checkAndRecord_fst, hr2, hn] at hacc
            · by_cases he : now - req.ticket.decryptedEncPart.endtime > maxSkew
              · simp [validateAPREQ, h, hs, checkAndRecord_fst, hr2, hn, he] at hacc
              · exact ⟨h, hs, hr2, hn, he⟩
      · simp [validateAPREQ, h] at hacc
    · rintro ⟨h, hs, hr, hn, he⟩
      simp [validateAPREQ, h, hs, checkAndRecord_fst, hr, hn, he]

/-- Witness for C1: a concrete mismatching context is rejected BadMatch,
and a concrete fully valid context is accepted. -/
theorem c1_witness :
    (validateAPREQ aOK tktMismatch 0 emptyCache).1 = .rejected .BadMatch ∧
      (validateAPREQ aOK tktOK 0 emptyCache).1 = .accepted :=
  ⟨(c1_validateAPREQ_ordered_checks aOK tktMismatch 0 emptyCache).1 (by decide),
   (c1_validateAPREQ_ordered_checks aOK tktOK 0 emptyCache).2.2.2.2.2.mpr
     ⟨by decide, by decide, by decide, by decide, by decide⟩⟩

/-- Claim C4: on a client-principal mismatch between authenticator and
ticket, `validateAPREQ` rejects with BadMatch and returns the replay cache
unchanged (no query or mutation of the cache has happened). -/
theorem c4_badmatch_cache_unchanged (a : Authenticator) (req : APReqDec) (now : Int)
    (c : ReplayCache) (h : a.cname ≠ req.ticket.decryptedEncPart.cname) :
    validateAPREQ a req now c = (.rejected .BadMatch, c) := by
  simp [validateAPREQ, h]

/-- Witness for C4 at a concrete mismatching context and a concrete
non-empty cache, which is returned untouched. -/
theorem c4_witness :
    validateAPREQ aOK tktMismatch 0 ⟨[(fpSample, 0)]⟩ =
      (.rejected .BadMatch, ⟨[(fpSample, 0)]⟩) :=
  c4_badmatch_cache_unchanged aOK tktMismatch 0 ⟨[(fpSample, 0)]⟩ (by decide)

/-- Counterexample to claim C5 as stated: a context whose authenticator
time is more than 5 minutes from `now` but whose client principal
mismatches is rejected with BadMatch, not ClockSkew — the skew rejection
is not issued "regardless of all other fields". -/
theorem c5_counterexample :
    maxSkew < |(1000000000 : Int) - authTime aOK| ∧
      (validateAPREQ aOK tktMismatch 1000000000 emptyCache).1 = .rejected .BadMatch ∧
      (validateAPREQ aOK tktMismatch 1000000000 emptyCache).1 ≠ .rejected .ClockSkew := by
  refine ⟨by decide, by decide, by decide⟩

/-- Claim C5 as amended: for every context that passes the principal-match
check, the authenticator time is the timestamp plus its microsecond
offset, and if the absolute difference between the single `now` of the
validation call and that time exceeds the 5-minute maximum skew, the
validator rejects with ClockSkew regardless of the remaining fields. -/
theorem c5_clockskew_after_principal_match (a : Authenticator) (req : APReqDec)
    (now : Int) (c : ReplayCache)
    (hmatch : a.cname = req.ticket.decryptedEncPart.cname)
    (hskew : maxSkew < |now - authTime a|) :
    authTime a = a.ctime + a.cusec ∧
      (validateAPREQ a req now c).1 = .rejected .ClockSkew := by
  refine ⟨rfl, ?_⟩
  have hs : now - authTime a > maxSkew ∨ authTime a - now > maxSkew := by
    rcases lt_abs.mp hskew with h | h
    · exact Or.inl h
    · exact Or.inr (by omega)
  simp [validateAPREQ, hmatch, hs]

/-- Witness for the amended C5 at a concrete matching, out-of-skew context. -/
theorem c5_witness :
    authTime aOK = aOK.ctime + aOK.cusec ∧
      (validateAPREQ aOK tktOK 1000000000 emptyCache).1 = .rejected .ClockSkew :=
  c5_clockskew_after_principal_match aOK tktOK 1000000000 emptyCache (by decide) (by decide)

/-- Claim C2: concurrent presentations of one fingerprint, modelled per the
spec's atomicity requirement as an arbitrary serialisation of atomic
check-and-record steps (each within the window of the first), yield exactly
one fresh outcome; every other presentation is reported a replay, and it is
never the case that two of them are both fresh. -/
theorem c2_exactly_one_fresh (window t0 : Int) (ts : List Int) (fp : Fingerprint)
    (c : ReplayCache)
    (hfresh : seenInWindow window fp t0 c = false)
    (hw : ∀ t ∈ ts, t - t0 ≤ window) :
    runCalls window fp c (t0 :: ts) = false :: ts.map (fun _ => true) ∧
      (runCalls window fp c (t0 :: ts)).count false = 1 := by
  have hcf := checkAndRecord_of_fresh window fp t0 c hfresh
  have h1 : runCalls window fp c (t0 :: ts) = false :: ts.map (fun _ => true) := by
    simp only [runCalls, hcf]
    exact congrArg (List.cons false)
      (runCalls_replays window t0 fp ts _ (List.mem_cons_self _ _) hw)
  refine ⟨h1, ?_⟩
  rw [h1, List.count_cons_self]
  have h0 : (ts.map (fun _ => true)).count false = 0 := by
    rw [List.count_eq_zero]
    intro hmem
    simp at hmem
  rw [h0]

/-- Witness for C2: three serialised presentations of one fingerprint at
one instant on an empty cache yield one fresh and two replays. -/
theorem c2_witness :
    runCalls 300000000 fpSample emptyCache [5, 5, 5] = [false, true, true] ∧
      (runCalls 300000000 fpSample emptyCache [5, 5, 5]).count false = 1 := by
  have h := c2_exactly_one_fresh 300000000 5 [5, 5] fpSample emptyCache (by decide) (by decide)
  simpa using h

/-- Counterexample to claim C9 as stated: a context (matching principals,
authenticator time 0) first presented at `now` = 300000000µs (exactly the
5-minute skew bound, so the skew check passes) and rejected NotYetValid has
its fingerprint recorded; an identical presentation at 600000000µs is still
within the replay window of the recorded entry, yet it is rejected with
ClockSkew — not Replay — because the clock-skew check fires first at the
later time. -/
theorem c9_counterexample :
    (validateAPREQ aOK tktNYV 300000000 emptyCache).1 = .rejected .NotYetValid ∧
      (fingerprintOf tktNYV aOK, 300000000) ∈
        (validateAPREQ aOK tktNYV 300000000 emptyCache).2.entries ∧
      (600000000 : Int) - 300000000 ≤ maxSkew ∧
      (validateAPREQ aOK tktNYV 600000000
        (validateAPREQ aOK tktNYV 300000000 emptyCache).2).1 = .rejected .ClockSkew ∧
      (validateAPREQ aOK tktNYV 600000000
        (validateAPREQ aOK tktNYV 300000000 emptyCache).2).1 ≠ .rejected .Replay :=
  ⟨by decide, by decide, by decide, by decide, by decide⟩

/-- Claim C9 as amended: a context that passes the principal-match,
clock-skew and replay checks and is then rejected NotYetValid or Expired
has its fingerprint recorded by the replay check, so an identical
presentation within the window that itself passes the principal-match and
clock-skew checks at its own validation time is rejected with Replay
rather than the original reason. -/
theorem c9_recorded_then_replay (a : Authenticator) (req : APReqDec) (now now2 : Int)
    (c : ReplayCache)
    (hmatch : a.cname = req.ticket.decryptedEncPart.cname)
    (hskew : ¬(now - authTime a > maxSkew ∨ authTime a - now > maxSkew))
    (hfresh : seenInWindow maxSkew (fingerprintOf req a) now c = false)
    (hrej : req.ticket.decryptedEncPart.starttime - now > maxSkew ∨
        req.ticket.decryptedEncPart.flagInvalid = true ∨
        now - req.ticket.decryptedEncPart.endtime > maxSkew)
    (hwin : now2 - now ≤ maxSkew)
    (hskew2 : ¬(now2 - authTime a > maxSkew ∨ authTime a - now2 > maxSkew)) :
    ((validateAPREQ a req now c).1 = .rejected .NotYetValid ∨
      (validateAPREQ a req now c).1 = .rejected .Expired) ∧
      (fingerprintOf req a, now) ∈ (validateAPREQ a req now c).2.entries ∧
      (validateAPREQ a req now2 (validateAPREQ a req now c).2).1 = .rejected .Replay := by
  have hcf := checkAndRecord_of_fresh maxSkew (fingerprintOf req a) now c hfresh
  have hsnd : (validateAPREQ a req now c).2 =
      ⟨(fingerprintOf req a, now) :: (evict maxSkew now c).entries⟩ := by
    by_cases hn : req.ticket.decryptedEncPart.starttime - now > maxSkew ∨
        req.ticket.decryptedEncPart.flagInvalid = true
    · simp [validateAPREQ, hmatch, hskew, hcf, hn]
    · by_cases he : now - req.ticket.decryptedEncPart.endtime > maxSkew
      · simp [validateAPREQ, hmatch, hskew, hcf, hn, he]
      · simp [validateAPREQ, hmatch, hskew, hcf, hn, he]
  have hfst : (validateAPREQ a req now c).1 = .rejected .NotYetValid ∨
      (validateAPREQ a req now c).1 = .rejected .Expired := by
    by_cases hn : req.ticket.decryptedEncPart.starttime - now > maxSkew ∨
        req.ticket.decryptedEncPart.flagInvalid = true
    · left
      simp [validateAPREQ, hmatch, hskew, hcf, hn]
    · right
      have he : now - req.ticket.decryptedEncPart.endtime > maxSkew := by
        rcases hrej with h | h | h
        · exact absurd (Or.inl h) hn
        · exact absurd (Or.inr h) hn
        · exact h
      simp [validateAPREQ, hmatch, hskew, hcf, hn, he]
  have hmem : (fingerprintOf req a, now) ∈ (validateAPREQ a req now c).2.entries := by
    rw [hsnd]
    exact List.mem_cons_self _ _
  refine ⟨hfst, hmem, ?_⟩
  set c1 := (validateAPREQ a req now c).2 with hc1
  have h2 := checkAndRecord_of_mem maxSkew now2 now (fingerprintOf req a) c1 hmem hwin
  simp [validateAPREQ, hmatch, hskew2, h2.1]

/-- Witness for the amended C9 at a concrete not-yet-valid context
re-presented 100µs later. -/
theorem c9_witness :
    ((validateAPREQ aOK tktNYV 0 emptyCache).1 = .rejected .NotYetValid ∨
      (validateAPREQ aOK tktNYV 0 emptyCache).1 = .rejected .Expired) ∧
      (fingerprintOf tktNYV aOK, 0) ∈ (validateAPREQ aOK tktNYV 0 emptyCache).2.entries ∧
      (validateAPREQ aOK tktNYV 100 (validateAPREQ aOK tktNYV 0 emptyCache).2).1 =
        .rejected .Replay :=
  c9_recorded_then_replay aOK tktNYV 0 100 emptyCache (by decide) (by decide) (by decide)
    (by decide) (by decide) (by decide)

/-- Counterexample to claim C8 as stated: the skew duration is not a
configuration parameter — the source hardcodes it ("Hardcode 5 min max
skew. May want to make this configurable").  At a concrete context with
5.5 minutes of skew the code rejects with ClockSkew, while the spec's
configurable validator set to d = 6 minutes accepts it: no configuration
of the code realises any d other than 5 minutes. -/
theorem c8_counterexample :
    (validateAPREQ aOK tktOK 330000000 emptyCache).1 = .rejected .ClockSkew ∧
      (validateAPREQWithD (6 * 60 * 1000000) aOK tktOK 330000000 emptyCache).1 = .accepted :=
  ⟨by decide, by decide⟩

/-- Claim C8 as amended: the maximum clock-skew duration is hardcoded at
5 minutes rather than configurable, and every validation call uses that
same duration both as the clock-skew bound and as the replay-cache window:
`validateAPREQ` coincides with the spec's d-parametric validator (which
uses its one `d` in both roles) instantiated at the hardcoded 5 minutes. -/
theorem c8_hardcoded_d_shared_by_skew_and_window :
    maxSkew = 5 * 60 * 1000000 ∧
      ∀ (a : Authenticator) (req : APReqDec) (now : Int) (c : ReplayCache),
        validateAPREQ a req now c = validateAPREQWithD maxSkew a req now c :=
  ⟨rfl, fun _ _ _ _ => rfl⟩

/-- Claim C7: a request whose Authorization header is missing (the empty
string) or does not consist of the scheme `Negotiate` followed by a token
is answered with the challenge — status 401, header `WWW-Authenticate:
Negotiate` with no token, body "Unauthorised.\n" — nothing is logged, and
the downstream handler is not invoked. -/
theorem c7_challenge_on_malformed_scheme (ext : Externals) (ktab : List Nat) (lp : Bool)
    (r : Request) (now : Int) (c : ReplayCache)
    (h : ¬ ∃ t, r.authorization = "Negotiate".toList ++ ' ' :: t) :
    SPNEGOKRB5Authenticate ext ktab lp r now c =
      (.denied ⟨401, "Negotiate", "Unauthorised.\n"⟩ none, c) := by
  unfold SPNEGOKRB5Authenticate
  rcases hq : goSplitN2 r.authorization with ⟨s0, s1⟩
  rcases s1 with _ | s1
  · rfl
  · by_cases hs : s0 = "Negotiate".toList
    · exfalso
      apply h
      have h2 : (goSplitN2 r.authorization).2 = some s1 := by rw [hq]
      have h3 := goSplitN2_some r.authorization s1 h2
      rw [hq] at h3
      exact ⟨s1, hs ▸ h3⟩
    · show (if s0 = "Negotiate".toList then processToken ext ktab lp r.remoteAddr s1 now c
        else (challengeResult, c)) =
        (.denied ⟨401, "Negotiate", "Unauthorised.\n"⟩ none, c)
      rw [if_neg hs]
      rfl

/-- Witness for C7 at a request with no Authorization header (the empty
string `r.Header.Get` yields). -/
theorem c7_witness :
    SPNEGOKRB5Authenticate extOK [] false ⟨"addr", []⟩ 0 emptyCache =
      (.denied ⟨401, "Negotiate", "Unauthorised.\n"⟩ none, emptyCache) :=
  c7_challenge_on_malformed_scheme extOK [] false ⟨"addr", []⟩ 0 emptyCache
    (by rintro ⟨t, ht⟩; simp at ht)

/-- Claim C3: whatever member of the error taxonomy fired past the scheme
guard — base64 decode failure, token decode failure, empty-list panic
aside, unsupported mechanism, decryption failures, unmarshalling failures,
or any `validateAPREQ` rejection — a denial writes the identical
client-visible response: status 401, the fixed reject token in
`WWW-Authenticate`, body "Unauthorised.\n"; the reason goes only to the
logger (absent logger, nothing is recorded). -/
theorem c3_reject_response_uniform (ext : Externals) (ktab : List Nat) (lp : Bool)
    (r : Request) (now : Int) (c : ReplayCache) (tok : List Char) (resp : Response)
    (logged : Option String) (c2 : ReplayCache)
    (htok : r.authorization = "Negotiate".toList ++ ' ' :: tok)
    (h : SPNEGOKRB5Authenticate ext ktab lp r now c = (.denied resp logged, c2)) :
    resp = ⟨401, SPNEGO_NegTokenResp_Reject, "Unauthorised.\n"⟩ ∧
      (lp = false → logged = none) := by
  rw [handler_guard_pass ext ktab lp r now c tok htok] at h
  unfold processToken at h
  repeat' split at h
  all_goals
    first
      | (injection h with h1 h2
         exact rejectSPNEGO_denied _ _ _ _ h1)
      | (injection h with h1 h2
         exact HandlerResult.noConfusion h1)

/-- Witness for C3 at a concrete request whose base64 decoding fails and
which runs without a logger. -/
theorem c3_witness :
    SPNEGOKRB5Authenticate extBadB64 [] false ⟨"addr", "Negotiate abc".toList⟩ 0 emptyCache =
      (.denied ⟨401, SPNEGO_NegTokenResp_Reject, "Unauthorised.\n"⟩ none, emptyCache) ∧
      ((⟨401, SPNEGO_NegTokenResp_Reject, "Unauthorised.\n"⟩ : Response) =
          ⟨401, SPNEGO_NegTokenResp_Reject, "Unauthorised.\n"⟩ ∧
        ((false : Bool) = false → (none : Option String) = none)) :=
  ⟨by decide,
   c3_reject_response_uniform extBadB64 [] false ⟨"addr", "Negotiate abc".toList⟩ 0 emptyCache
     ("abc".toList) ⟨401, SPNEGO_NegTokenResp_Reject, "Unauthorised.\n"⟩ none emptyCache
     (by decide) (by decide)⟩

/-- Claim C6: when the token decodes, decrypts, and passes `validateAPREQ`,
the handler attaches the client principal name, the client realm and
`authenticated = true` to the request context, sets `WWW-Authenticate` to
the fixed accept-completed token, and invokes the downstream handler with
that enriched request. -/
theorem c6_accept_enriches_context (ext : Externals) (ktab : List Nat) (lp : Bool)
    (r : Request) (now : Int) (c : ReplayCache) (tok : List Char) (b : List Nat)
    (nInit : NegTokenInit) (rest : List OID) (mt : MechToken) (decTkt : TicketEncPart)
    (ab : List Nat) (a : Authenticator)
    (htok : r.authorization = "Negotiate".toList ++ ' ' :: tok)
    (hb : ext.b64decode tok = .ok b)
    (hnt : ext.unmarshalNegToken b = .ntInit nInit)
    (hmech : nInit.mechTypes = MechTypeOID_Krb5 :: rest)
    (hmt : ext.unmarshalMechToken nInit.mechToken = .ok mt)
    (hap : mt.isAPReq = true)
    (hdt : ext.decryptTicketEncPart ktab mt.apreq.ticket.encPart = .ok decTkt)
    (hda : ext.decryptAuthenticator decTkt.key mt.apreq.authenticator = .ok ab)
    (hua : ext.unmarshalAuthenticator ab = .ok a)
    (hv : (validateAPREQ a ⟨⟨mt.apreq.ticket.sname, mt.apreq.ticket.realm, decTkt⟩⟩ now c).1 =
      .accepted) :
    SPNEGOKRB5Authenticate ext ktab lp r now c =
      (.accepted SPNEGO_NegTokenResp_Krb_Accept_Completed
        ⟨getPrincipalNameString a.cname, a.crealm, true⟩,
       (validateAPREQ a ⟨⟨mt.apreq.ticket.sname, mt.apreq.ticket.realm, decTkt⟩⟩ now c).2) := by
  rw [handler_guard_pass ext ktab lp r now c tok htok]
  unfold processToken
  simp only [hb, hnt, hmech, hmt, hdt, hda, hua]
  rw [if_neg (by simp : ¬ MechTypeOID_Krb5 ≠ MechTypeOID_Krb5)]
  rw [if_neg (by simp [hap])]
  rcases hveq : validateAPREQ a ⟨⟨mt.apreq.ticket.sname, mt.apreq.ticket.realm, decTkt⟩⟩ now c
    with ⟨d, c3⟩
  rw [hveq] at hv
  have hd : d = AuthDecision.accepted := hv
  subst hd
  rfl

/-- Witness for C6: a concrete request whose every stage succeeds is
forwarded downstream with `cname = "alice"`, `crealm = "REALM"`,
`authenticated = true`, the accept-completed header set, and the
fingerprint recorded in the cache. -/
theorem c6_witness :
    SPNEGOKRB5Authenticate extOK [] false ⟨"addr", "Negotiate abc".toList⟩ 0 emptyCache =
      (.accepted SPNEGO_NegTokenResp_Krb_Accept_Completed ⟨"alice", "REALM", true⟩,
       ⟨[(fpSample, 0)]⟩) := by
  have h := c6_accept_enriches_context extOK [] false ⟨"addr", "Negotiate abc".toList⟩ 0
    emptyCache ("abc".toList) [] ⟨[MechTypeOID_Krb5], []⟩ [] ⟨true, ⟨⟨srv, "REALM", []⟩, []⟩⟩
    ⟨[], alice, 0, 1000000000000, false⟩ [] aOK (by decide) rfl rfl rfl rfl rfl rfl rfl rfl
    (by decide)
  rw [h]
  decide

/-- Claim C10: past a successful decode to a NegTokenInit, the handler
indexes `MechTypes[0]` without an emptiness check: with an empty MechTypes
list the invocation ends in the index-out-of-range runtime panic rather
than any reject response, and with a non-empty list no panic occurs. -/
theorem c10_empty_mechtypes_panics (ext : Externals) (ktab : List Nat) (lp : Bool)
    (r : Request) (now : Int) (c : ReplayCache) (tok : List Char) (b : List Nat)
    (nInit : NegTokenInit)
    (htok : r.authorization = "Negotiate".toList ++ ' ' :: tok)
    (hb : ext.b64decode tok = .ok b)
    (hnt : ext.unmarshalNegToken b = .ntInit nInit) :
    (nInit.mechTypes = [] →
      SPNEGOKRB5Authenticate ext ktab lp r now c = (.panicked, c)) ∧
    (nInit.mechTypes ≠ [] →
      (SPNEGOKRB5Authenticate ext ktab lp r now c).1 ≠ .panicked) := by
  rw [handler_guard_pass ext ktab lp r now c tok htok]
  unfold processToken
  simp only [hb, hnt]
  constructor
  · intro hempty
    simp [hempty]
  · intro hne
    rcases hml : nInit.mechTypes with _ | ⟨m0, rest⟩
    · exact absurd hml hne
    · simp only [hml]
      repeat' split
      all_goals simp [rejectSPNEGO]

/-- Witness for C10: a concrete request decoding to a NegTokenInit with an
empty MechTypes list makes the handler panic. -/
theorem c10_witness :
    SPNEGOKRB5Authenticate extEmptyMech [] false ⟨"addr", "Negotiate abc".toList⟩ 0 emptyCache =
      (.panicked, emptyCache) :=
  (c10_empty_mechtypes_panics extEmptyMech [] false ⟨"addr", "Negotiate abc".toList⟩ 0
    emptyCache ("abc".toList) [] ⟨[], []⟩ (by decide) rfl rfl).1 (by decide)

end Service
